import Mathlib

/-!
Shallow embedding of the time-stepped point-reconstruction engine and its
collision policies from `gplately/reconstruction.py`:

* class `DefaultCollision` (kinematic collision policy),
* class `ContinentCollision` (raster collision policy, chainable),
* class `ReconstructByTopologies` (the reconstruction engine).

External pygplates collaborators (the rotation model, topology resolution,
point-in-polygon location, velocity and geodesic-distance computation, the
raster interpolator) are modelled as function parameters; Python floats are
modelled as rationals, Python `None` as `Option.none`.  The per-step and
per-time stage-rotation dictionaries of the source are pure memoizations of
the deterministic collaborator `rotation_model.get_rotation` and are elided
(each cached entry always equals the corresponding direct call), except for
the grid cache of `ContinentCollision`, whose observable counter state is
modelled explicitly.
-/

namespace GPlately

/-- External collaborators consumed by `ReconstructByTopologies`:
`get_rotation to_time plate_id from_time` is `rotation_model.get_rotation`;
`apply_rotation` is `stage_rotation * point`; `locate_polygon time point` is
the result of `pygplates.resolve_topologies` followed by
`ptt.utils.points_in_polygons.find_polygons` for one point (the resolved
topology containing the point, if any); `get_reconstruction_plate_id` is
`polygon.get_feature().get_reconstruction_plate_id()`. -/
structure Collaborators (Pt Geom Rot : Type) where
  get_rotation : ℚ → ℕ → ℚ → Rot
  apply_rotation : Rot → Pt → Pt
  locate_polygon : ℚ → Pt → Option Geom
  get_reconstruction_plate_id : Geom → ℕ

/-- Signature of a collision-detection callable as invoked by the engine:
arguments are current time, reconstruction time interval, previous point,
current point, previous plate id, previous resolved boundary, current plate
id, current resolved boundary (the rotation model is closed over). -/
def CollisionFn (Pt Geom : Type) : Type :=
  ℚ → ℚ → Pt → Pt → Option ℕ → Option Geom → Option ℕ → Option Geom → Bool

/-- Configuration of `ReconstructByTopologies` as built by `__init__`:
clock fields, point seeds, per-point activation windows (with the defaults
`float(inf)` / `float(-inf)` modelled as `⊤ : WithTop ℚ` / `⊥ : WithBot ℚ`),
per-point fallback plate ids, collaborators and the optional collision
callable (`detect_collisions = None` disables collision testing). -/
structure RBTConfig (Pt Geom Rot : Type) where
  reconstruction_begin_time : ℚ
  reconstruction_end_time : ℚ
  reconstruction_time_step : ℚ
  reconstruction_time_interval : ℚ
  num_times : ℕ
  points : List Pt
  num_points : ℕ
  point_begin_times : ℕ → WithTop ℚ
  point_end_times : ℕ → WithBot ℚ
  point_plate_ids : ℕ → ℕ
  collab : Collaborators Pt Geom Rot
  detect_collisions : Option (CollisionFn Pt Geom)

/-- Mutable per-run state of `ReconstructByTopologies` (the fields set up by
`begin_reconstruction`).  The Python arrays of length `num_points` are
modelled as total functions; indices at or beyond `num_points` are never
observed. -/
structure RBTState (Pt Geom : Type) where
  current_time_index : ℕ
  prev_points : ℕ → Option Pt
  curr_points : ℕ → Option Pt
  next_points : ℕ → Option Pt
  point_has_been_activated : ℕ → Bool
  num_activated_points : ℕ
  prev_topology_plate_ids : ℕ → Option ℕ
  curr_topology_plate_ids : ℕ → Option ℕ
  prev_resolved_plate_boundaries : ℕ → Option Geom
  curr_resolved_plate_boundaries : ℕ → Option Geom
  deletedpoints : List ℕ

variable {Pt Geom Rot : Type}

/-- Method `get_current_time`. -/
def get_current_time (cfg : RBTConfig Pt Geom Rot) (s : RBTState Pt Geom) : ℚ :=
  cfg.reconstruction_begin_time + (s.current_time_index : ℚ) * cfg.reconstruction_time_step

/-- The activation-window test of `_activate_deactivate_points`:
`current_time <= point_begin_times[i] and current_time >= point_end_times[i]`. -/
def window_contains (cfg : RBTConfig Pt Geom Rot) (t : ℚ) (i : ℕ) : Bool :=
  decide ((t : WithTop ℚ) ≤ cfg.point_begin_times i) &&
    decide (cfg.point_end_times i ≤ (t : WithBot ℚ))

/-- A point index that `_activate_deactivate_points` activates at time `t`:
not currently active, never previously activated, and inside its window. -/
def newly_activated (cfg : RBTConfig Pt Geom Rot) (t : ℚ) (s : RBTState Pt Geom)
    (i : ℕ) : Bool :=
  (s.curr_points i).isNone && !s.point_has_been_activated i && window_contains cfg t i

/-- Method `_activate_deactivate_points`: activate each inactive,
never-activated point whose window contains the current time (at its seed
position, marking it permanently activated and bumping
`num_activated_points`); deactivate each active point whose window no longer
contains the current time. -/
def activate_deactivate_points (cfg : RBTConfig Pt Geom Rot) (s : RBTState Pt Geom) :
    RBTState Pt Geom :=
  let current_time := get_current_time cfg s
  { s with
    curr_points := fun i =>
      match s.curr_points i with
      | none =>
          if !s.point_has_been_activated i && window_contains cfg current_time i then
            cfg.points.get? i
          else none
      | some p =>
          if window_contains cfg current_time i then some p else none
    point_has_been_activated := fun i =>
      s.point_has_been_activated i || newly_activated cfg current_time s i
    num_activated_points := s.num_activated_points +
      ((List.range cfg.num_points).filter (newly_activated cfg current_time s)).length }

/-- Method `_find_resolved_topologies_containing_points`: for every inactive
point both current topology fields become `none`; for every active point the
containing resolved polygon (if any) is stored and its reconstruction plate
id extracted. -/
def find_resolved_topologies_containing_points (cfg : RBTConfig Pt Geom Rot)
    (s : RBTState Pt Geom) : RBTState Pt Geom :=
  let current_time := get_current_time cfg s
  { s with
    curr_resolved_plate_boundaries := fun i =>
      match s.curr_points i with
      | none => none
      | some p => cfg.collab.locate_polygon current_time p
    curr_topology_plate_ids := fun i =>
      match s.curr_points i with
      | none => none
      | some p =>
          (cfg.collab.locate_polygon current_time p).map
            cfg.collab.get_reconstruction_plate_id }

/-- The rotation loop and buffer rotation of `reconstruct_to_next_time`.
The rotation loop keeps the source's `continue` statement verbatim: when an
active point has no current topology plate id the fallback plate id is
assigned to a local variable and the iteration then `continue`s, leaving
`next_points[i]` at its stale value from two steps ago instead of rotating
the point.  The per-step `reconstruct_stage_rotation_dict` is a pure
memoization of `get_rotation` and is elided.  Afterwards the three point
buffers rotate (`previous ← current`, `current ← next`, `next ← previous`),
the two topology buffer pairs swap, and the time index advances. -/
def rotate_points (cfg : RBTConfig Pt Geom Rot) (s : RBTState Pt Geom) :
    RBTState Pt Geom :=
  let current_time := get_current_time cfg s
  let next' : ℕ → Option Pt := fun i =>
    match s.curr_points i with
    | none => none
    | some p =>
        match s.curr_topology_plate_ids i with
        | none => s.next_points i
        | some pid =>
            some (cfg.collab.apply_rotation
              (cfg.collab.get_rotation (current_time + cfg.reconstruction_time_step)
                pid current_time) p)
  { s with
    prev_points := s.curr_points
    curr_points := next'
    next_points := s.prev_points
    prev_topology_plate_ids := s.curr_topology_plate_ids
    curr_topology_plate_ids := s.prev_topology_plate_ids
    prev_resolved_plate_boundaries := s.curr_resolved_plate_boundaries
    curr_resolved_plate_boundaries := s.prev_resolved_plate_boundaries
    current_time_index := s.current_time_index + 1 }

/-- Whether the collision loop of `reconstruct_to_next_time` detects a
collision for point `i`: only points active at both the previous and the
current slot are queried. -/
def collided_at (cfg : RBTConfig Pt Geom Rot) (detect : CollisionFn Pt Geom)
    (s : RBTState Pt Geom) (i : ℕ) : Bool :=
  match s.prev_points i, s.curr_points i with
  | some pp, some cp =>
      detect (get_current_time cfg s) cfg.reconstruction_time_interval pp cp
        (s.prev_topology_plate_ids i) (s.prev_resolved_plate_boundaries i)
        (s.curr_topology_plate_ids i) (s.curr_resolved_plate_boundaries i)
  | _, _ => false

/-- The collision loop of `reconstruct_to_next_time`: each collided point's
current position is forced to `None` and its index appended to
`deletedpoints`. -/
def detect_collisions_pass (cfg : RBTConfig Pt Geom Rot) (detect : CollisionFn Pt Geom)
    (s : RBTState Pt Geom) : RBTState Pt Geom :=
  { s with
    curr_points := fun i => if collided_at cfg detect s i then none else s.curr_points i
    deletedpoints := s.deletedpoints ++
      (List.range cfg.num_points).filter (collided_at cfg detect s) }

/-- Method `reconstruct_to_next_time`; `none` models returning `False`:
stop at the last time index, or when every point has been activated and none
is active; otherwise rotate all points to the next time, swap buffers,
advance the clock, re-run activation/deactivation and membership resolution
at the new current time, and, when collision detection is enabled, run the
collision loop. -/
def reconstruct_to_next_time (cfg : RBTConfig Pt Geom Rot) (s : RBTState Pt Geom) :
    Option (RBTState Pt Geom) :=
  if s.current_time_index = cfg.num_times - 1 then none
  else if s.num_activated_points = cfg.num_points &&
      (List.range cfg.num_points).all (fun i => (s.curr_points i).isNone) then none
  else
    let s2 := find_resolved_topologies_containing_points cfg
      (activate_deactivate_points cfg (rotate_points cfg s))
    match cfg.detect_collisions with
    | none => some s2
    | some detect => some (detect_collisions_pass cfg detect s2)

/-- Method `begin_reconstruction`: zero the time index, fill every buffer
with `None`, then run activation and membership resolution at the first
sample time. -/
def begin_reconstruction (cfg : RBTConfig Pt Geom Rot) : RBTState Pt Geom :=
  find_resolved_topologies_containing_points cfg (activate_deactivate_points cfg
    { current_time_index := 0
      prev_points := fun _ => none
      curr_points := fun _ => none
      next_points := fun _ => none
      point_has_been_activated := fun _ => false
      num_activated_points := 0
      prev_topology_plate_ids := fun _ => none
      curr_topology_plate_ids := fun _ => none
      prev_resolved_plate_boundaries := fun _ => none
      curr_resolved_plate_boundaries := fun _ => none
      deletedpoints := [] })

/-- The `while self.reconstruct_to_next_time(): pass` loop with explicit
fuel; once a step reports no progress the state is returned unchanged. -/
def runSteps (cfg : RBTConfig Pt Geom Rot) : ℕ → RBTState Pt Geom → RBTState Pt Geom
  | 0, s => s
  | fuel + 1, s =>
      match reconstruct_to_next_time cfg s with
      | none => s
      | some s' => runSteps cfg fuel s'

/-- Method `get_active_current_points`: the current positions of the active
points only, in original point order. -/
def get_active_current_points (cfg : RBTConfig Pt Geom Rot) (s : RBTState Pt Geom) :
    List Pt :=
  (List.range cfg.num_points).filterMap s.curr_points

/-- Method `reconstruct`: initialise, loop until no further progress, return
the active current points.  Fuel `num_times` dominates the loop because each
successful step increments `current_time_index`, which stops the loop at
`last_time_index = num_times - 1`. -/
def reconstruct (cfg : RBTConfig Pt Geom Rot) : List Pt :=
  get_active_current_points cfg
    (runSteps cfg cfg.num_times (begin_reconstruction cfg))

/-- Validation and defaulting of one optional per-point array in `__init__`:
`None` yields the default value at every index, a provided list must have
length `n` (else `ValueError`) and is read back positionally. -/
def optional_point_array {α β : Type} (provided : Option (List α)) (coe : α → β)
    (default : β) (n : ℕ) (msg : String) : Except String (ℕ → β) :=
  match provided with
  | none => Except.ok fun _ => default
  | some l =>
      if l.length = n then
        Except.ok fun i => ((l.get? i).map coe).getD default
      else Except.error msg

/-- The initial signed time step of `__init__`: the magnitude is the given
interval and reconstruction runs backward (negative step) exactly when
`reconstruction_begin_time > reconstruction_end_time`. -/
def initial_time_step (b e i : ℚ) : ℚ := if b > e then -i else i

/-- The sample-time count of `__init__` before clamping:
`1 + int(math.floor(1e-6 + (end - begin) / time_step))`. -/
def num_times_raw (b e i : ℚ) : ℤ :=
  1 + Int.floor ((1 : ℚ) / 1000000 + (e - b) / initial_time_step b e i)

/-- Constructor `ReconstructByTopologies.__init__`.  `Except.error` models
raising `ValueError`; the checks happen before any simulation state exists
(state is only created later, by `begin_reconstruction`).  Conversion of the
rotation and topology feature data is performed by external pygplates
collaborators and is outside this model. -/
def ReconstructByTopologies_init (collab : Collaborators Pt Geom Rot)
    (detect_collisions : Option (CollisionFn Pt Geom))
    (reconstruction_begin_time reconstruction_end_time reconstruction_time_interval : ℚ)
    (points : List Pt)
    (point_begin_times point_end_times : Option (List ℚ))
    (point_plate_ids : Option (List ℕ)) :
    Except String (RBTConfig Pt Geom Rot) :=
  if reconstruction_time_interval ≤ 0 then
    Except.error "reconstruction_time_interval must be positive."
  else
    let step0 := initial_time_step reconstruction_begin_time reconstruction_end_time
      reconstruction_time_interval
    let raw := num_times_raw reconstruction_begin_time reconstruction_end_time
      reconstruction_time_interval
    let num_times : ℕ := if raw = 1 then 2 else raw.toNat
    let step : ℚ := if raw = 1 then
        reconstruction_end_time - reconstruction_begin_time
      else step0
    let num_points := points.length
    match optional_point_array point_begin_times (fun x => (x : WithTop ℚ)) ⊤ num_points
      "Length of point_begin_times must match length of points." with
    | Except.error msg => Except.error msg
    | Except.ok begin_times =>
      match optional_point_array point_end_times (fun x => (x : WithBot ℚ)) ⊥ num_points
        "Length of point_end_times must match length of points." with
      | Except.error msg => Except.error msg
      | Except.ok end_times =>
        match optional_point_array point_plate_ids id 0 num_points
          "Length of point_plate_ids must match length of points." with
        | Except.error msg => Except.error msg
        | Except.ok plate_ids =>
          Except.ok
            { reconstruction_begin_time := reconstruction_begin_time
              reconstruction_end_time := reconstruction_end_time
              reconstruction_time_step := step
              reconstruction_time_interval := |step|
              num_times := num_times
              points := points
              num_points := num_points
              point_begin_times := begin_times
              point_end_times := end_times
              point_plate_ids := plate_ids
              collab := collab
              detect_collisions := detect_collisions }

/-!
Embedding of class `DefaultCollision`.  The per-time velocity stage-rotation
dictionary is a pure memoization of `rotation_model.get_rotation` keyed by
plate id and cleared on every time change; every cached entry equals the
direct call, so the dictionary is elided and `__call__` is a pure function
of its arguments.
-/

/-- External pygplates operations consumed by `DefaultCollision`:
`get_rotation` is `rotation_model.get_rotation(to_time, plate_id, from_time)`;
`calculate_velocity rot p` is
`pygplates.calculate_velocities((p,), rot, 1, kms_per_my)[0]`;
`vec_sub` and `magnitude` are vector difference and `get_magnitude`;
`geodesic_distance p g` is the (always defined, non-thresholded) geodesic
distance used by `pygplates.GeometryOnSphere.distance`;
`get_resolved_boundary` is `resolved_topology.get_resolved_boundary()`, and
`get_boundary_sub_segments` lists each boundary sub-segment of a resolved
topology as its feature type paired with `get_resolved_geometry()`. -/
structure KinematicModel (Pt Bd Geom Rot Vec FT : Type) where
  get_rotation : ℚ → ℕ → ℚ → Rot
  calculate_velocity : Rot → Pt → Vec
  vec_sub : Vec → Vec → Vec
  magnitude : Vec → ℚ
  geodesic_distance : Pt → Geom → ℚ
  get_resolved_boundary : Bd → Geom
  get_boundary_sub_segments : Bd → List (FT × Geom)

/-- Constant `pygplates.Earth.equatorial_radius_in_kms` (6378.137). -/
def equatorial_radius_in_kms : ℚ := 6378137 / 1000

variable {Bd Vec FT : Type}

/-- Thresholded `pygplates.GeometryOnSphere.distance`: the distance when it
is within the threshold, otherwise `None`. -/
def geometry_on_sphere_distance (km : KinematicModel Pt Bd Geom Rot Vec FT)
    (p : Pt) (g : Geom) (distance_threshold_radians : ℚ) : Option ℚ :=
  if km.geodesic_distance p g ≤ distance_threshold_radians then
    some (km.geodesic_distance p g)
  else none

/-- Method `DefaultCollision._detect_collision_using_collision_parameters`. -/
def detect_collision_using_collision_parameters
    (km : KinematicModel Pt Bd Geom Rot Vec FT)
    (reconstruction_time_interval delta_velocity_magnitude : ℚ)
    (prev_point : Pt) (prev_boundary_geometry : Geom)
    (threshold_velocity_delta threshold_distance_to_boundary_per_my : ℚ) : Bool :=
  if delta_velocity_magnitude > threshold_velocity_delta then
    (geometry_on_sphere_distance km prev_point prev_boundary_geometry
      ((threshold_distance_to_boundary_per_my + delta_velocity_magnitude) *
        reconstruction_time_interval / equatorial_radius_in_kms)).isSome
  else false

/-- The relative-velocity magnitude computed by `DefaultCollision.__call__`:
the magnitude of the difference of the velocities of the current point under
the stage rotations `get_rotation(time + 1, pid, time)` of the two plates. -/
def relative_velocity_magnitude (km : KinematicModel Pt Bd Geom Rot Vec FT)
    (time : ℚ) (curr_point : Pt) (prev_pid curr_pid : ℕ) : ℚ :=
  km.magnitude (km.vec_sub
    (km.calculate_velocity (km.get_rotation (time + 1) curr_pid time) curr_point)
    (km.calculate_velocity (km.get_rotation (time + 1) prev_pid time) curr_point))

/-- Method `DefaultCollision.__call__`.  Returns `True` when a collision is
detected.  `prev_resolved_plate_boundary` is only dereferenced inside the
changed-plate branch, where the engine guarantees a resolved boundary exists
(the plate id is extracted from it), so it is passed as a plain value. -/
def DefaultCollision_call [BEq FT] (km : KinematicModel Pt Bd Geom Rot Vec FT)
    (global_collision_parameters : ℚ × ℚ)
    (feature_specific_collision_parameters : List (FT × (ℚ × ℚ)))
    (time reconstruction_time_interval : ℚ)
    (prev_point curr_point : Pt)
    (prev_topology_plate_id : Option ℕ) (prev_resolved_plate_boundary : Bd)
    (curr_topology_plate_id : Option ℕ) (_curr_resolved_plate_boundary : Bd) : Bool :=
  match prev_topology_plate_id, curr_topology_plate_id with
  | some prev_pid, some curr_pid =>
      if curr_pid ≠ prev_pid then
        let delta_velocity_magnitude :=
          relative_velocity_magnitude km time curr_point prev_pid curr_pid
        if feature_specific_collision_parameters.isEmpty then
          detect_collision_using_collision_parameters km
            reconstruction_time_interval delta_velocity_magnitude prev_point
            (km.get_resolved_boundary prev_resolved_plate_boundary)
            global_collision_parameters.1 global_collision_parameters.2
        else
          (km.get_boundary_sub_segments prev_resolved_plate_boundary).any fun seg =>
            let params := ((feature_specific_collision_parameters.lookup seg.1).getD
              global_collision_parameters)
            detect_collision_using_collision_parameters km
              reconstruction_time_interval delta_velocity_magnitude prev_point
              seg.2 params.1 params.2
      else false
  | _, _ => false

/-!
Embedding of class `ContinentCollision`.  The raster interpolator built on a
time change is modelled by the collaborator `sample_grid time point` (the
nearest-neighbour interpolation of the grid loaded for `time`, sampled at
the point's longitude/latitude); the one-slot grid cache keyed by time and
the deletion counter are modelled as explicit state.
-/

/-- State of a `ContinentCollision` instance: the currently loaded grid time
(`None` before the first call) and `continent_deletion_count`. -/
structure ContinentCollisionState where
  grid_time : Option ℚ
  continent_deletion_count : ℕ

/-- Method `ContinentCollision.__call__`: reload the grid (and zero the
deletion counter) on a time change; report a collision and bump the counter
when the sampled value exceeds 0.5; otherwise defer to the chained
collision detection when present, else report no collision. -/
def ContinentCollision_call (sample_grid : ℚ → Pt → ℚ)
    (chain_collision_detection : Option (CollisionFn Pt Geom))
    (s : ContinentCollisionState)
    (time reconstruction_time_interval : ℚ)
    (prev_point curr_point : Pt)
    (prev_topology_plate_id : Option ℕ) (prev_resolved_plate_boundary : Option Geom)
    (curr_topology_plate_id : Option ℕ) (curr_resolved_plate_boundary : Option Geom) :
    Bool × ContinentCollisionState :=
  let s := if some time ≠ s.grid_time then
      { grid_time := some time, continent_deletion_count := 0 }
    else s
  if 1 / 2 < sample_grid time curr_point then
    (true, { s with continent_deletion_count := s.continent_deletion_count + 1 })
  else
    match chain_collision_detection with
    | some chain =>
        (chain time reconstruction_time_interval prev_point curr_point
          prev_topology_plate_id prev_resolved_plate_boundary
          curr_topology_plate_id curr_resolved_plate_boundary, s)
    | none => (false, s)

/-- One query to a collision callable, as passed by the engine. -/
structure CollisionQuery (Pt Geom : Type) where
  time : ℚ
  reconstruction_time_interval : ℚ
  prev_point : Pt
  curr_point : Pt
  prev_topology_plate_id : Option ℕ
  prev_resolved_plate_boundary : Option Geom
  curr_topology_plate_id : Option ℕ
  curr_resolved_plate_boundary : Option Geom

/-- Sequential processing of a list of queries by one `ContinentCollision`
instance, threading its state. -/
def ContinentCollision_run (sample_grid : ℚ → Pt → ℚ)
    (chain_collision_detection : Option (CollisionFn Pt Geom)) :
    ContinentCollisionState → List (CollisionQuery Pt Geom) → ContinentCollisionState
  | s, [] => s
  | s, q :: qs =>
      ContinentCollision_run sample_grid chain_collision_detection
        (ContinentCollision_call sample_grid chain_collision_detection s
          q.time q.reconstruction_time_interval q.prev_point q.curr_point
          q.prev_topology_plate_id q.prev_resolved_plate_boundary
          q.curr_topology_plate_id q.curr_resolved_plate_boundary).2 qs

/-- Run invariant: every currently active point has been activated (the only
transition from `None` to a position is the activation branch of
`_activate_deactivate_points`, which sets `point_has_been_activated`). -/
def activation_recorded (s : RBTState Pt Geom) : Prop :=
  ∀ i, (s.curr_points i).isSome = true → s.point_has_been_activated i = true

/-- Run invariant: every point recorded in `deletedpoints` has been activated
and is currently inactive. -/
def deleted_inactive (s : RBTState Pt Geom) : Prop :=
  ∀ i ∈ s.deletedpoints,
    s.point_has_been_activated i = true ∧ s.curr_points i = none

/-- Extract the payload of an `Except.ok`, with a fallback. -/
def exceptOk {ε α : Type} (fallback : α) : Except ε α → α
  | Except.ok a => a
  | Except.error _ => fallback

/-!
Concrete instantiations used to evaluate the engine on explicit inputs.
Positions are integers, a rotation is the integer it adds to a position, and
a resolved polygon is its plate id.
-/

/-- Collaborators that never locate a point inside any resolved polygon. -/
def collabOutside (shift : ℤ) : Collaborators ℤ ℕ ℤ :=
  { get_rotation := fun _ pid _ => shift + (pid : ℤ)
    apply_rotation := fun r p => p + r
    locate_polygon := fun _ _ => none
    get_reconstruction_plate_id := fun g => g }

/-- Collaborators that locate every point inside the polygon `poly`. -/
def collabInside (shift : ℤ) (poly : ℕ) : Collaborators ℤ ℕ ℤ :=
  { get_rotation := fun _ pid _ => shift + (pid : ℤ)
    apply_rotation := fun r p => p + r
    locate_polygon := fun _ _ => some poly
    get_reconstruction_plate_id := fun g => g }

/-- Engine over times 0,1,2 with a single point with unrestricted window. -/
def mkCfg (seed : ℤ) (collab : Collaborators ℤ ℕ ℤ)
    (detect : Option (CollisionFn ℤ ℕ)) : RBTConfig ℤ ℕ ℤ :=
  { reconstruction_begin_time := 0
    reconstruction_end_time := 2
    reconstruction_time_step := 1
    reconstruction_time_interval := 1
    num_times := 3
    points := [seed]
    num_points := 1
    point_begin_times := fun _ => ⊤
    point_end_times := fun _ => ⊥
    point_plate_ids := fun _ => 0
    collab := collab
    detect_collisions := detect }

/-- Failing input for the fallback-rotation claim: one active point outside
all resolved polygons. -/
def cfgC1 : RBTConfig ℤ ℕ ℤ := mkCfg 3 (collabOutside 10) none

/-- Failing input for the window claim: one point with an unrestricted
window, outside all resolved polygons, no collision detection. -/
def cfgC2 : RBTConfig ℤ ℕ ℤ := mkCfg 5 (collabOutside 1) none

/-- Counterexample input for the state-invariant claim: a collision policy
that always reports a collision, point inside polygon 7. -/
def cfgC3 : RBTConfig ℤ ℕ ℤ :=
  mkCfg 4 (collabInside 1 7) (some fun _ _ _ _ _ _ _ _ => true)

/-- Witness input for the amended state invariant: no collision detection,
point inside polygon 3. -/
def cfgW3 : RBTConfig ℤ ℕ ℤ := mkCfg 2 (collabInside 1 3) none

/-- The state after one engine step on `cfgW3`. -/
def sW3 : RBTState ℤ ℕ :=
  (reconstruct_to_next_time cfgW3 (begin_reconstruction cfgW3)).getD
    (begin_reconstruction cfgW3)

/-- Witness input for monotonic deactivation: always-collide policy. -/
def cfgW6 : RBTConfig ℤ ℕ ℤ :=
  mkCfg 6 (collabInside 1 2) (some fun _ _ _ _ _ _ _ _ => true)

/-- Trivial collaborators over unit types, for constructor-only statements. -/
def trivialCollab : Collaborators Unit Unit Unit :=
  { get_rotation := fun _ _ _ => ()
    apply_rotation := fun _ _ => ()
    locate_polygon := fun _ _ => none
    get_reconstruction_plate_id := fun _ => 0 }

/-- Fallback configuration used when reading back a constructor result. -/
def cfgFallback : RBTConfig Unit Unit Unit :=
  { reconstruction_begin_time := 0
    reconstruction_end_time := 0
    reconstruction_time_step := 0
    reconstruction_time_interval := 0
    num_times := 0
    points := []
    num_points := 0
    point_begin_times := fun _ => ⊤
    point_end_times := fun _ => ⊥
    point_plate_ids := fun _ => 0
    collab := trivialCollab
    detect_collisions := none }

/-- The configuration built by the constructor with all optional per-point
arrays omitted, over the span 10 → 0 with interval 1. -/
def cfgW8 : RBTConfig Unit Unit Unit :=
  exceptOk cfgFallback
    (ReconstructByTopologies_init trivialCollab none 10 0 1 [()] none none none)

/-- The configuration built by the constructor over the span 10 → 0 with
interval 1 and an empty point list. -/
def cfgW5 : RBTConfig Unit Unit Unit :=
  exceptOk cfgFallback
    (ReconstructByTopologies_init trivialCollab none 10 0 1 [] none none none)

/-- A concrete collision query used to evaluate the continental policy. -/
def qW10 : CollisionQuery ℤ ℕ :=
  { time := 0
    reconstruction_time_interval := 1
    prev_point := 0
    curr_point := 0
    prev_topology_plate_id := none
    prev_resolved_plate_boundary := none
    curr_topology_plate_id := none
    curr_resolved_plate_boundary := none }

/-!
Lemmas and theorems.
-/

@[simp] lemma act_current_time_index (cfg : RBTConfig Pt Geom Rot) (s : RBTState Pt Geom) :
    (activate_deactivate_points cfg s).current_time_index = s.current_time_index := rfl

@[simp] lemma act_prev_points (cfg : RBTConfig Pt Geom Rot) (s : RBTState Pt Geom) :
    (activate_deactivate_points cfg s).prev_points = s.prev_points := rfl

@[simp] lemma act_next_points (cfg : RBTConfig Pt Geom Rot) (s : RBTState Pt Geom) :
    (activate_deactivate_points cfg s).next_points = s.next_points := rfl

@[simp] lemma act_prev_topology_plate_ids (cfg : RBTConfig Pt Geom Rot) (s : RBTState Pt Geom) :
    (activate_deactivate_points cfg s).prev_topology_plate_ids = s.prev_topology_plate_ids := rfl

@[simp] lemma act_curr_topology_plate_ids (cfg : RBTConfig Pt Geom Rot) (s : RBTState Pt Geom) :
    (activate_deactivate_points cfg s).curr_topology_plate_ids = s.curr_topology_plate_ids := rfl

@[simp] lemma act_prev_resolved (cfg : RBTConfig Pt Geom Rot) (s : RBTState Pt Geom) :
    (activate_deactivate_points cfg s).prev_resolved_plate_boundaries =
      s.prev_resolved_plate_boundaries := rfl

@[simp] lemma act_curr_resolved (cfg : RBTConfig Pt Geom Rot) (s : RBTState Pt Geom) :
    (activate_deactivate_points cfg s).curr_resolved_plate_boundaries =
      s.curr_resolved_plate_boundaries := rfl

@[simp] lemma act_deletedpoints (cfg : RBTConfig Pt Geom Rot) (s : RBTState Pt Geom) :
    (activate_deactivate_points cfg s).deletedpoints = s.deletedpoints := rfl

@[simp] lemma find_current_time_index (cfg : RBTConfig Pt Geom Rot) (s : RBTState Pt Geom) :
    (find_resolved_topologies_containing_points cfg s).current_time_index =
      s.current_time_index := rfl

@[simp] lemma find_prev_points (cfg : RBTConfig Pt Geom Rot) (s : RBTState Pt Geom) :
    (find_resolved_topologies_containing_points cfg s).prev_points = s.prev_points := rfl

@[simp] lemma find_curr_points (cfg : RBTConfig Pt Geom Rot) (s : RBTState Pt Geom) :
    (find_resolved_topologies_containing_points cfg s).curr_points = s.curr_points := rfl

@[simp] lemma find_next_points (cfg : RBTConfig Pt Geom Rot) (s : RBTState Pt Geom) :
    (find_resolved_topologies_containing_points cfg s).next_points = s.next_points := rfl

@[simp] lemma find_point_has_been_activated (cfg : RBTConfig Pt Geom Rot)
    (s : RBTState Pt Geom) :
    (find_resolved_topologies_containing_points cfg s).point_has_been_activated =
      s.point_has_been_activated := rfl

@[simp] lemma find_num_activated_points (cfg : RBTConfig Pt Geom Rot) (s : RBTState Pt Geom) :
    (find_resolved_topologies_containing_points cfg s).num_activated_points =
      s.num_activated_points := rfl

@[simp] lemma find_prev_topology_plate_ids (cfg : RBTConfig Pt Geom Rot)
    (s : RBTState Pt Geom) :
    (find_resolved_topologies_containing_points cfg s).prev_topology_plate_ids =
      s.prev_topology_plate_ids := rfl

@[simp] lemma find_prev_resolved (cfg : RBTConfig Pt Geom Rot) (s : RBTState Pt Geom) :
    (find_resolved_topologies_containing_points cfg s).prev_resolved_plate_boundaries =
      s.prev_resolved_plate_boundaries := rfl

@[simp] lemma find_deletedpoints (cfg : RBTConfig Pt Geom Rot) (s : RBTState Pt Geom) :
    (find_resolved_topologies_containing_points cfg s).deletedpoints = s.deletedpoints := rfl

@[simp] lemma rotate_current_time_index (cfg : RBTConfig Pt Geom Rot) (s : RBTState Pt Geom) :
    (rotate_points cfg s).current_time_index = s.current_time_index + 1 := rfl

@[simp] lemma rotate_point_has_been_activated (cfg : RBTConfig Pt Geom Rot)
    (s : RBTState Pt Geom) :
    (rotate_points cfg s).point_has_been_activated = s.point_has_been_activated := rfl

@[simp] lemma rotate_num_activated_points (cfg : RBTConfig Pt Geom Rot) (s : RBTState Pt Geom) :
    (rotate_points cfg s).num_activated_points = s.num_activated_points := rfl

@[simp] lemma rotate_deletedpoints (cfg : RBTConfig Pt Geom Rot) (s : RBTState Pt Geom) :
    (rotate_points cfg s).deletedpoints = s.deletedpoints := rfl

@[simp] lemma collisions_current_time_index (cfg : RBTConfig Pt Geom Rot)
    (detect : CollisionFn Pt Geom) (s : RBTState Pt Geom) :
    (detect_collisions_pass cfg detect s).current_time_index = s.current_time_index := rfl

@[simp] lemma collisions_point_has_been_activated (cfg : RBTConfig Pt Geom Rot)
    (detect : CollisionFn Pt Geom) (s : RBTState Pt Geom) :
    (detect_collisions_pass cfg detect s).point_has_been_activated =
      s.point_has_been_activated := rfl

@[simp] lemma collisions_num_activated_points (cfg : RBTConfig Pt Geom Rot)
    (detect : CollisionFn Pt Geom) (s : RBTState Pt Geom) :
    (detect_collisions_pass cfg detect s).num_activated_points = s.num_activated_points := rfl

@[simp] lemma collisions_curr_topology_plate_ids (cfg : RBTConfig Pt Geom Rot)
    (detect : CollisionFn Pt Geom) (s : RBTState Pt Geom) :
    (detect_collisions_pass cfg detect s).curr_topology_plate_ids =
      s.curr_topology_plate_ids := rfl

@[simp] lemma collisions_curr_resolved (cfg : RBTConfig Pt Geom Rot)
    (detect : CollisionFn Pt Geom) (s : RBTState Pt Geom) :
    (detect_collisions_pass cfg detect s).curr_resolved_plate_boundaries =
      s.curr_resolved_plate_boundaries := rfl

@[simp] lemma collisions_curr_points (cfg : RBTConfig Pt Geom Rot)
    (detect : CollisionFn Pt Geom) (s : RBTState Pt Geom) (i : ℕ) :
    (detect_collisions_pass cfg detect s).curr_points i =
      if collided_at cfg detect s i then none else s.curr_points i := rfl

@[simp] lemma collisions_deletedpoints (cfg : RBTConfig Pt Geom Rot)
    (detect : CollisionFn Pt Geom) (s : RBTState Pt Geom) :
    (detect_collisions_pass cfg detect s).deletedpoints =
      s.deletedpoints ++ (List.range cfg.num_points).filter (collided_at cfg detect s) := rfl

/-- Characterization of the stop conditions of `reconstruct_to_next_time`. -/
lemma reconstruct_to_next_time_eq_none_iff (cfg : RBTConfig Pt Geom Rot)
    (s : RBTState Pt Geom) :
    reconstruct_to_next_time cfg s = none ↔
      (s.current_time_index = cfg.num_times - 1 ∨
        (s.num_activated_points = cfg.num_points ∧
          ∀ i < cfg.num_points, s.curr_points i = none)) := by
  have hbool : ((s.num_activated_points = cfg.num_points : Bool) &&
      (List.range cfg.num_points).all (fun i => (s.curr_points i).isNone)) = true ↔
      (s.num_activated_points = cfg.num_points ∧
        ∀ i < cfg.num_points, s.curr_points i = none) := by
    simp [List.all_eq_true, Option.isNone_iff_eq_none, List.mem_range]
  unfold reconstruct_to_next_time
  by_cases h1 : s.current_time_index = cfg.num_times - 1
  · simp [h1]
  · by_cases h2 : ((s.num_activated_points = cfg.num_points : Bool) &&
        (List.range cfg.num_points).all (fun i => (s.curr_points i).isNone)) = true
    · rw [if_neg h1, if_pos h2]
      exact iff_of_true rfl (Or.inr (hbool.mp h2))
    · rw [if_neg h1, if_neg h2]
      have hnot : ¬ (s.current_time_index = cfg.num_times - 1 ∨
          (s.num_activated_points = cfg.num_points ∧
            ∀ i < cfg.num_points, s.curr_points i = none)) := by
        rintro (hc | hc)
        · exact h1 hc
        · exact h2 (hbool.mpr hc)
      refine iff_of_false ?_ hnot
      cases hd : cfg.detect_collisions <;> simp [hd]

/-- A successful step advances the time index by exactly one. -/
lemma reconstruct_to_next_time_idx {cfg : RBTConfig Pt Geom Rot} {s s' : RBTState Pt Geom}
    (h : reconstruct_to_next_time cfg s = some s') :
    s'.current_time_index = s.current_time_index + 1 := by
  unfold reconstruct_to_next_time at h
  split_ifs at h
  cases hd : cfg.detect_collisions <;> rw [hd] at h <;>
    · injection h with h
      subst h
      simp

/-- Once a step reports no progress the loop leaves the state unchanged. -/
lemma runSteps_of_stop {cfg : RBTConfig Pt Geom Rot} (fuel : ℕ) {s : RBTState Pt Geom}
    (h : reconstruct_to_next_time cfg s = none) : runSteps cfg fuel s = s := by
  cases fuel with
  | zero => rfl
  | succ n => simp [runSteps, h]

/-- Splitting a fueled run. -/
lemma runSteps_add (cfg : RBTConfig Pt Geom Rot) (a b : ℕ) (s : RBTState Pt Geom) :
    runSteps cfg (a + b) s = runSteps cfg b (runSteps cfg a s) := by
  induction a generalizing s with
  | zero => simp [runSteps]
  | succ n ih =>
      have hsum : n + 1 + b = (n + b) + 1 := by omega
      rw [hsum]
      cases h : reconstruct_to_next_time cfg s with
      | none => simp [runSteps, h, runSteps_of_stop b h]
      | some s' => simpa [runSteps, h] using ih s'

/-- With enough fuel the loop always reaches a stopped state. -/
lemma runSteps_stops (cfg : RBTConfig Pt Geom Rot) :
    ∀ (fuel : ℕ) (s : RBTState Pt Geom),
      s.current_time_index ≤ cfg.num_times - 1 →
      cfg.num_times - 1 ≤ s.current_time_index + fuel →
      reconstruct_to_next_time cfg (runSteps cfg fuel s) = none := by
  intro fuel
  induction fuel with
  | zero =>
      intro s h1 h2
      have hidx : s.current_time_index = cfg.num_times - 1 := by omega
      rw [runSteps]
      exact (reconstruct_to_next_time_eq_none_iff cfg s).mpr (Or.inl hidx)
  | succ n ih =>
      intro s h1 h2
      cases h : reconstruct_to_next_time cfg s with
      | none => rw [runSteps_of_stop _ h]; exact h
      | some s' =>
          have hidx := reconstruct_to_next_time_idx h
          have hne : s.current_time_index ≠ cfg.num_times - 1 := by
            intro hc
            rw [(reconstruct_to_next_time_eq_none_iff cfg s).mpr (Or.inl hc)] at h
            cases h
          simp only [runSteps, h]
          exact ih s' (by omega) (by omega)

/-- C7: `reconstruct` repeatedly advances one step, stopping exactly when
the current time index equals the last time index or when every point has
been activated at least once and no point is currently active, and returns
the current positions of the active points only, in original point order,
with inactive points omitted. -/
theorem reconstruct_main_loop (cfg : RBTConfig Pt Geom Rot) :
    (∀ s : RBTState Pt Geom,
      reconstruct_to_next_time cfg s = none ↔
        (s.current_time_index = cfg.num_times - 1 ∨
          (s.num_activated_points = cfg.num_points ∧
            ∀ i < cfg.num_points, s.curr_points i = none)))
    ∧ reconstruct cfg = (List.range cfg.num_points).filterMap
        (runSteps cfg cfg.num_times (begin_reconstruction cfg)).curr_points
    ∧ reconstruct_to_next_time cfg
        (runSteps cfg cfg.num_times (begin_reconstruction cfg)) = none := by
  refine ⟨reconstruct_to_next_time_eq_none_iff cfg, rfl, ?_⟩
  have hidx : (begin_reconstruction cfg).current_time_index = 0 := rfl
  exact runSteps_stops cfg cfg.num_times (begin_reconstruction cfg)
    (by omega) (by omega)

lemma rotate_curr_points (cfg : RBTConfig Pt Geom Rot) (s : RBTState Pt Geom) (i : ℕ) :
    (rotate_points cfg s).curr_points i =
      (match s.curr_points i with
       | none => none
       | some p =>
           match s.curr_topology_plate_ids i with
           | none => s.next_points i
           | some pid =>
               some (cfg.collab.apply_rotation
                 (cfg.collab.get_rotation
                   (get_current_time cfg s + cfg.reconstruction_time_step) pid
                   (get_current_time cfg s)) p)) := rfl

lemma act_curr_points (cfg : RBTConfig Pt Geom Rot) (s : RBTState Pt Geom) (i : ℕ) :
    (activate_deactivate_points cfg s).curr_points i =
      (match s.curr_points i with
       | none =>
           if !s.point_has_been_activated i &&
               window_contains cfg (get_current_time cfg s) i then
             cfg.points.get? i
           else none
       | some p =>
           if window_contains cfg (get_current_time cfg s) i then some p else none) := rfl

lemma act_flag (cfg : RBTConfig Pt Geom Rot) (s : RBTState Pt Geom) (i : ℕ) :
    (activate_deactivate_points cfg s).point_has_been_activated i =
      (s.point_has_been_activated i ||
        newly_activated cfg (get_current_time cfg s) s i) := rfl

lemma find_curr_topology_plate_ids_def (cfg : RBTConfig Pt Geom Rot)
    (s : RBTState Pt Geom) (i : ℕ) :
    (find_resolved_topologies_containing_points cfg s).curr_topology_plate_ids i =
      (match s.curr_points i with
       | none => none
       | some p =>
           (cfg.collab.locate_polygon (get_current_time cfg s) p).map
             cfg.collab.get_reconstruction_plate_id) := rfl

lemma find_curr_resolved_def (cfg : RBTConfig Pt Geom Rot)
    (s : RBTState Pt Geom) (i : ℕ) :
    (find_resolved_topologies_containing_points cfg s).curr_resolved_plate_boundaries i =
      (match s.curr_points i with
       | none => none
       | some p => cfg.collab.locate_polygon (get_current_time cfg s) p) := rfl

/-- Elimination form of a successful step: the new state is the resolved
state, post collision loop when collision detection is enabled. -/
lemma reconstruct_to_next_time_some_elim {cfg : RBTConfig Pt Geom Rot}
    {s s' : RBTState Pt Geom} (h : reconstruct_to_next_time cfg s = some s') :
    (cfg.detect_collisions = none ∧
      s' = find_resolved_topologies_containing_points cfg
        (activate_deactivate_points cfg (rotate_points cfg s))) ∨
    (∃ detect, cfg.detect_collisions = some detect ∧
      s' = detect_collisions_pass cfg detect
        (find_resolved_topologies_containing_points cfg
          (activate_deactivate_points cfg (rotate_points cfg s)))) := by
  unfold reconstruct_to_next_time at h
  split_ifs at h
  cases hd : cfg.detect_collisions with
  | none =>
      rw [hd] at h
      injection h with h
      exact Or.inl ⟨rfl, h.symm⟩
  | some detect =>
      rw [hd] at h
      injection h with h
      exact Or.inr ⟨detect, rfl, h.symm⟩

lemma collided_at_curr_isSome {cfg : RBTConfig Pt Geom Rot} {detect : CollisionFn Pt Geom}
    {s : RBTState Pt Geom} {i : ℕ} (h : collided_at cfg detect s i = true) :
    (s.curr_points i).isSome = true := by
  unfold collided_at at h
  rcases hp : s.prev_points i with _ | pp <;> rcases hc : s.curr_points i with _ | cp <;>
    rw [hp, hc] at h <;> simp_all

lemma activation_recorded_rotate (cfg : RBTConfig Pt Geom Rot) {s : RBTState Pt Geom}
    (h : activation_recorded s) : activation_recorded (rotate_points cfg s) := by
  intro i hi
  rcases hc : s.curr_points i with _ | p
  · rw [rotate_curr_points, hc] at hi
    cases hi
  · exact h i (by rw [hc]; rfl)

lemma activation_recorded_act (cfg : RBTConfig Pt Geom Rot) {s : RBTState Pt Geom}
    (h : activation_recorded s) : activation_recorded (activate_deactivate_points cfg s) := by
  intro i hi
  rw [act_flag]
  rcases hc : s.curr_points i with _ | p
  · rw [act_curr_points, hc] at hi
    by_cases hcond : (!s.point_has_been_activated i &&
        window_contains cfg (get_current_time cfg s) i) = true
    · have hnew : newly_activated cfg (get_current_time cfg s) s i = true := by
        simp only [newly_activated, hc, Option.isNone_none, Bool.true_and]
        exact hcond
      simp [hnew]
    · rw [if_neg hcond] at hi
      cases hi
  · have := h i (by rw [hc]; rfl)
    simp [this]

lemma activation_recorded_find (cfg : RBTConfig Pt Geom Rot) {s : RBTState Pt Geom}
    (h : activation_recorded s) :
    activation_recorded (find_resolved_topologies_containing_points cfg s) := by
  intro i hi
  rw [find_curr_points] at hi
  rw [find_point_has_been_activated]
  exact h i hi

lemma activation_recorded_collisions (cfg : RBTConfig Pt Geom Rot)
    (detect : CollisionFn Pt Geom) {s : RBTState Pt Geom} (h : activation_recorded s) :
    activation_recorded (detect_collisions_pass cfg detect s) := by
  intro i hi
  rw [collisions_curr_points] at hi
  rw [collisions_point_has_been_activated]
  split at hi
  · cases hi
  · exact h i hi

lemma activation_recorded_step {cfg : RBTConfig Pt Geom Rot} {s s' : RBTState Pt Geom}
    (h : activation_recorded s) (hst : reconstruct_to_next_time cfg s = some s') :
    activation_recorded s' := by
  rcases reconstruct_to_next_time_some_elim hst with ⟨_, rfl⟩ | ⟨detect, _, rfl⟩
  · exact activation_recorded_find cfg
      (activation_recorded_act cfg (activation_recorded_rotate cfg h))
  · exact activation_recorded_collisions cfg detect
      (activation_recorded_find cfg
        (activation_recorded_act cfg (activation_recorded_rotate cfg h)))

lemma dead_point_rotate (cfg : RBTConfig Pt Geom Rot) {s : RBTState Pt Geom} {i : ℕ}
    (hf : s.point_has_been_activated i = true) (hc : s.curr_points i = none) :
    (rotate_points cfg s).point_has_been_activated i = true ∧
      (rotate_points cfg s).curr_points i = none := by
  refine ⟨hf, ?_⟩
  rw [rotate_curr_points, hc]

lemma dead_point_act (cfg : RBTConfig Pt Geom Rot) {s : RBTState Pt Geom} {i : ℕ}
    (hf : s.point_has_been_activated i = true) (hc : s.curr_points i = none) :
    (activate_deactivate_points cfg s).point_has_been_activated i = true ∧
      (activate_deactivate_points cfg s).curr_points i = none := by
  constructor
  · rw [act_flag, hf]
    rfl
  · rw [act_curr_points, hc]
    simp [hf]

lemma dead_point_find (cfg : RBTConfig Pt Geom Rot) {s : RBTState Pt Geom} {i : ℕ}
    (hf : s.point_has_been_activated i = true) (hc : s.curr_points i = none) :
    (find_resolved_topologies_containing_points cfg s).point_has_been_activated i = true ∧
      (find_resolved_topologies_containing_points cfg s).curr_points i = none := by
  rw [find_point_has_been_activated, find_curr_points]
  exact ⟨hf, hc⟩

lemma dead_point_collisions (cfg : RBTConfig Pt Geom Rot) (detect : CollisionFn Pt Geom)
    {s : RBTState Pt Geom} {i : ℕ}
    (hf : s.point_has_been_activated i = true) (hc : s.curr_points i = none) :
    (detect_collisions_pass cfg detect s).point_has_been_activated i = true ∧
      (detect_collisions_pass cfg detect s).curr_points i = none := by
  rw [collisions_point_has_been_activated, collisions_curr_points, hc]
  exact ⟨hf, by split <;> rfl⟩

/-- A point that has been activated and is currently inactive stays inactive
(and activated) across any successful step: the rotation loop propagates
`None`, a permanently-activated point is never re-activated, and the
collision loop never touches inactive points. -/
lemma dead_point_step {cfg : RBTConfig Pt Geom Rot} {s s' : RBTState Pt Geom} {i : ℕ}
    (hf : s.point_has_been_activated i = true) (hc : s.curr_points i = none)
    (hst : reconstruct_to_next_time cfg s = some s') :
    s'.point_has_been_activated i = true ∧ s'.curr_points i = none := by
  rcases reconstruct_to_next_time_some_elim hst with ⟨_, rfl⟩ | ⟨detect, _, rfl⟩
  · obtain ⟨hf1, hc1⟩ := dead_point_rotate cfg hf hc
    obtain ⟨hf2, hc2⟩ := dead_point_act cfg hf1 hc1
    exact dead_point_find cfg hf2 hc2
  · obtain ⟨hf1, hc1⟩ := dead_point_rotate cfg hf hc
    obtain ⟨hf2, hc2⟩ := dead_point_act cfg hf1 hc1
    obtain ⟨hf3, hc3⟩ := dead_point_find cfg hf2 hc2
    exact dead_point_collisions cfg detect hf3 hc3

lemma deleted_inactive_step {cfg : RBTConfig Pt Geom Rot} {s s' : RBTState Pt Geom}
    (hAR : activation_recorded s) (hDI : deleted_inactive s)
    (hst : reconstruct_to_next_time cfg s = some s') : deleted_inactive s' := by
  have hAR2 : activation_recorded (find_resolved_topologies_containing_points cfg
      (activate_deactivate_points cfg (rotate_points cfg s))) :=
    activation_recorded_find cfg
      (activation_recorded_act cfg (activation_recorded_rotate cfg hAR))
  rcases reconstruct_to_next_time_some_elim hst with ⟨_, rfl⟩ | ⟨detect, _, rfl⟩
  · intro i hi
    rw [find_deletedpoints, act_deletedpoints, rotate_deletedpoints] at hi
    obtain ⟨hf, hc⟩ := hDI i hi
    obtain ⟨hf1, hc1⟩ := dead_point_rotate cfg hf hc
    obtain ⟨hf2, hc2⟩ := dead_point_act cfg hf1 hc1
    exact dead_point_find cfg hf2 hc2
  · intro i hi
    rw [collisions_deletedpoints, find_deletedpoints, act_deletedpoints,
      rotate_deletedpoints] at hi
    rcases List.mem_append.mp hi with hold | hnew
    · obtain ⟨hf, hc⟩ := hDI i hold
      obtain ⟨hf1, hc1⟩ := dead_point_rotate cfg hf hc
      obtain ⟨hf2, hc2⟩ := dead_point_act cfg hf1 hc1
      obtain ⟨hf3, hc3⟩ := dead_point_find cfg hf2 hc2
      exact dead_point_collisions cfg detect hf3 hc3
    · have hcol : collided_at cfg detect (find_resolved_topologies_containing_points cfg
          (activate_deactivate_points cfg (rotate_points cfg s))) i = true :=
        (List.mem_filter.mp hnew).2
      refine ⟨hAR2 i (collided_at_curr_isSome hcol), ?_⟩
      rw [collisions_curr_points, if_pos hcol]

lemma activation_recorded_begin (cfg : RBTConfig Pt Geom Rot) :
    activation_recorded (begin_reconstruction cfg) := by
  apply activation_recorded_find
  apply activation_recorded_act
  intro i hi
  cases hi

lemma deleted_inactive_begin (cfg : RBTConfig Pt Geom Rot) :
    deleted_inactive (begin_reconstruction cfg) := by
  intro i hi
  cases hi

lemma invariants_runSteps (cfg : RBTConfig Pt Geom Rot) :
    ∀ (k : ℕ) (s : RBTState Pt Geom),
      activation_recorded s → deleted_inactive s →
      activation_recorded (runSteps cfg k s) ∧ deleted_inactive (runSteps cfg k s) := by
  intro k
  induction k with
  | zero => exact fun s hAR hDI => ⟨hAR, hDI⟩
  | succ n ih =>
      intro s hAR hDI
      cases h : reconstruct_to_next_time cfg s with
      | none => simpa [runSteps, h] using And.intro hAR hDI
      | some s' =>
          simp only [runSteps, h]
          exact ih s' (activation_recorded_step hAR h) (deleted_inactive_step hAR hDI h)

/-- C6: once a point's index has been recorded in `deletedpoints` (its
position was forced to `None` by a reported collision), its current position
is `None` at every later slot of the run: it is never reactivated and never
rotated again. -/
theorem monotonic_deactivation_after_collision (cfg : RBTConfig Pt Geom Rot)
    (k j i : ℕ)
    (hmem : i ∈ (runSteps cfg k (begin_reconstruction cfg)).deletedpoints) :
    (runSteps cfg (k + j) (begin_reconstruction cfg)).curr_points i = none := by
  obtain ⟨hf, hc⟩ := (invariants_runSteps cfg k (begin_reconstruction cfg)
    (activation_recorded_begin cfg) (deleted_inactive_begin cfg)).2 i hmem
  rw [runSteps_add]
  revert hf hc
  generalize runSteps cfg k (begin_reconstruction cfg) = s
  induction j generalizing s with
  | zero => exact fun _ hc => hc
  | succ n ih =>
      intro hf hc
      cases h : reconstruct_to_next_time cfg s with
      | none => simpa [runSteps, h] using hc
      | some s' =>
          simp only [runSteps, h]
          obtain ⟨hf', hc'⟩ := dead_point_step hf hc h
          exact ih s' hf' hc'

/-- C6 witness: with an always-colliding policy the single point is recorded
as deleted during the first step and is still inactive one step later. -/
theorem monotonic_deactivation_after_collision_witness :
    0 ∈ (runSteps cfgW6 1 (begin_reconstruction cfgW6)).deletedpoints ∧
      (runSteps cfgW6 (1 + 1) (begin_reconstruction cfgW6)).curr_points 0 = none :=
  ⟨by decide, monotonic_deactivation_after_collision cfgW6 1 1 0 (by decide)⟩

/-- C3 (amended): at the end of every engine step a present current topology
plate id or boundary implies the point is active or was deactivated by the
collision policy (its index recorded in `deletedpoints`); with collision
detection disabled the original invariant holds unconditionally. -/
theorem plate_id_only_when_active_amended (cfg : RBTConfig Pt Geom Rot)
    (s s' : RBTState Pt Geom) (h : reconstruct_to_next_time cfg s = some s')
    (i : ℕ) (hi : i < cfg.num_points) :
    (((s'.curr_topology_plate_ids i).isSome = true ∨
        (s'.curr_resolved_plate_boundaries i).isSome = true) →
      ((s'.curr_points i).isSome = true ∨ i ∈ s'.deletedpoints))
    ∧ (cfg.detect_collisions = none →
        ((s'.curr_topology_plate_ids i).isSome = true ∨
          (s'.curr_resolved_plate_boundaries i).isSome = true) →
        (s'.curr_points i).isSome = true) := by
  rcases reconstruct_to_next_time_some_elim h with ⟨hd, rfl⟩ | ⟨detect, hd, rfl⟩
  · have hkey : ∀ hyp : ((find_resolved_topologies_containing_points cfg
        (activate_deactivate_points cfg (rotate_points cfg s))).curr_topology_plate_ids i).isSome =
          true ∨
        ((find_resolved_topologies_containing_points cfg
          (activate_deactivate_points cfg (rotate_points cfg s))).curr_resolved_plate_boundaries
            i).isSome = true,
        ((find_resolved_topologies_containing_points cfg
          (activate_deactivate_points cfg (rotate_points cfg s))).curr_points i).isSome = true := by
      intro hyp
      rw [find_curr_points]
      rcases hc : (activate_deactivate_points cfg (rotate_points cfg s)).curr_points i
        with _ | p
      · rw [find_curr_topology_plate_ids_def, find_curr_resolved_def, hc] at hyp
        rcases hyp with hyp | hyp <;> cases hyp
      · rfl
    exact ⟨fun hyp => Or.inl (hkey hyp), fun _ hyp => hkey hyp⟩
  · constructor
    · intro hyp
      rw [collisions_curr_topology_plate_ids, collisions_curr_resolved] at hyp
      have hsome : ((find_resolved_topologies_containing_points cfg
          (activate_deactivate_points cfg (rotate_points cfg s))).curr_points i).isSome =
            true := by
        rw [find_curr_points]
        rcases hc : (activate_deactivate_points cfg (rotate_points cfg s)).curr_points i
          with _ | p
        · rw [find_curr_topology_plate_ids_def, find_curr_resolved_def, hc] at hyp
          rcases hyp with hyp | hyp <;> cases hyp
        · rfl
      by_cases hcol : collided_at cfg detect (find_resolved_topologies_containing_points cfg
          (activate_deactivate_points cfg (rotate_points cfg s))) i = true
      · refine Or.inr ?_
        rw [collisions_deletedpoints]
        exact List.mem_append.mpr (Or.inr
          (List.mem_filter.mpr ⟨List.mem_range.mpr hi, hcol⟩))
      · refine Or.inl ?_
        rw [collisions_curr_points, if_neg hcol]
        exact hsome
    · intro hnone
      rw [hd] at hnone
      cases hnone

/-- C3 witness: on a step without collision detection, a present plate id
forces the point to be active. -/
theorem plate_id_only_when_active_amended_witness :
    (sW3.curr_points 0).isSome = true :=
  (plate_id_only_when_active_amended cfgW3 (begin_reconstruction cfgW3) sW3
    (by rfl) 0 (by decide)).2 rfl (Or.inl (by decide))

/-- C3 counterexample: after a step in which the collision policy fired, the
single point's current position is absent while its current topology plate
id and current resolved boundary are still present, so the claimed end-of-
step invariant fails. -/
theorem plate_id_only_when_active_counterexample :
    (runSteps cfgC3 1 (begin_reconstruction cfgC3)).curr_points 0 = none ∧
      (runSteps cfgC3 1 (begin_reconstruction cfgC3)).curr_topology_plate_ids 0 = some 7 ∧
      (runSteps cfgC3 1 (begin_reconstruction cfgC3)).curr_resolved_plate_boundaries 0 =
        some 7 := by
  refine ⟨by decide, by decide, by decide⟩

/-- C1 (code bug): on `cfgC1` the single point is active at time 0 with no
containing resolved polygon, so by the claim (and the source's own comment)
the step should rotate it by the stage rotation of its fallback plate id 0,
giving position 3 + 10 = 13; instead the `continue` in the rotation loop
leaves the stale next buffer value `None`, and after the buffer rotation the
point's new current position is `None`, not `some 13`. -/
theorem fallback_plate_rotation_skipped_bug :
    (begin_reconstruction cfgC1).curr_points 0 = some 3 ∧
      (begin_reconstruction cfgC1).curr_topology_plate_ids 0 = none ∧
      cfgC1.collab.apply_rotation
        (cfgC1.collab.get_rotation
          (get_current_time cfgC1 (begin_reconstruction cfgC1) +
            cfgC1.reconstruction_time_step)
          (cfgC1.point_plate_ids 0)
          (get_current_time cfgC1 (begin_reconstruction cfgC1))) 3 = 13 ∧
      (runSteps cfgC1 1 (begin_reconstruction cfgC1)).curr_points 0 = none ∧
      (runSteps cfgC1 1 (begin_reconstruction cfgC1)).curr_points 0 ≠ some 13 := by
  refine ⟨by decide, by decide, by decide, by decide, by decide⟩

/-- C2 (code bug): on `cfgC2` the single point has an unrestricted
activation window (every sampled time is inside it) and collision detection
is disabled, yet after one step the point is inactive: the stale next-buffer
propagation of the rotation loop's `continue` deactivated it without any
collision, so the claimed window iff fails at the second sampled time. -/
theorem window_correctness_bug :
    window_contains cfgC2
        (get_current_time cfgC2 (runSteps cfgC2 1 (begin_reconstruction cfgC2))) 0 = true ∧
      cfgC2.detect_collisions = none ∧
      (runSteps cfgC2 1 (begin_reconstruction cfgC2)).deletedpoints = [] ∧
      (begin_reconstruction cfgC2).curr_points 0 = some 5 ∧
      (runSteps cfgC2 1 (begin_reconstruction cfgC2)).curr_points 0 = none := by
  refine ⟨by decide, rfl, by decide, by decide, by decide⟩

/-- C4: with global collision parameters and no feature-specific parameters
(the default policy), `DefaultCollision.__call__` reports a collision iff
the two plate ids are present and differ, the relative velocity magnitude
strictly exceeds the velocity threshold, and the geodesic distance from the
previous point to the previous boundary geometry is within
`(distanceThresholdPerTime + relativeVelocity) * intervalLength /
equatorial_radius_in_kms`. -/
theorem default_collision_decision [BEq FT] (km : KinematicModel Pt Bd Geom Rot Vec FT)
    (velocity_threshold distance_threshold_per_my time reconstruction_time_interval : ℚ)
    (prev_point curr_point : Pt)
    (prev_topology_plate_id curr_topology_plate_id : Option ℕ)
    (prev_bd curr_bd : Bd) :
    DefaultCollision_call km (velocity_threshold, distance_threshold_per_my)
        ([] : List (FT × (ℚ × ℚ))) time reconstruction_time_interval
        prev_point curr_point prev_topology_plate_id prev_bd
        curr_topology_plate_id curr_bd = true ↔
      ∃ prev_pid curr_pid,
        prev_topology_plate_id = some prev_pid ∧
        curr_topology_plate_id = some curr_pid ∧
        curr_pid ≠ prev_pid ∧
        velocity_threshold <
          relative_velocity_magnitude km time curr_point prev_pid curr_pid ∧
        km.geodesic_distance prev_point (km.get_resolved_boundary prev_bd) ≤
          (distance_threshold_per_my +
              relative_velocity_magnitude km time curr_point prev_pid curr_pid) *
            reconstruction_time_interval / equatorial_radius_in_kms := by
  rcases prev_topology_plate_id with _ | a
  · simp [DefaultCollision_call]
  · rcases curr_topology_plate_id with _ | b
    · simp [DefaultCollision_call]
    · by_cases hab : b = a
      · subst hab
        simp [DefaultCollision_call]
      · simp only [DefaultCollision_call, if_pos hab, List.isEmpty_nil, if_pos rfl,
          detect_collision_using_collision_parameters, geometry_on_sphere_distance,
          gt_iff_lt, Option.some.injEq]
        by_cases hv : velocity_threshold <
            relative_velocity_magnitude km time curr_point a b
        · by_cases hdist : km.geodesic_distance prev_point
              (km.get_resolved_boundary prev_bd) ≤
              (distance_threshold_per_my +
                  relative_velocity_magnitude km time curr_point a b) *
                reconstruction_time_interval / equatorial_radius_in_kms
          · simp [hv, hdist, hab]
          · simp [hv, hdist]
        · simp [hv]

/-- C5: with a positive interval the constructor succeeds (given defaulted
per-point arrays) and derives `num_times = 1 + floor(1e-6 + (end − begin) /
step)` where the initial signed step has the interval's magnitude and the
sign of `end − begin`; a count of exactly 1 is clamped to 2, in which case
the effective signed step becomes the full span `end − begin`. -/
theorem num_times_derivation (collab : Collaborators Pt Geom Rot)
    (detect : Option (CollisionFn Pt Geom)) (b e i : ℚ) (points : List Pt)
    (hi : 0 < i) :
    ∃ cfg : RBTConfig Pt Geom Rot,
      ReconstructByTopologies_init collab detect b e i points none none none =
        Except.ok cfg ∧
      num_times_raw b e i =
        1 + Int.floor ((1 : ℚ) / 1000000 + (e - b) / initial_time_step b e i) ∧
      (b < e → initial_time_step b e i = i) ∧
      (e < b → initial_time_step b e i = -i) ∧
      cfg.num_times =
        (if num_times_raw b e i = 1 then 2 else (num_times_raw b e i).toNat) ∧
      (num_times_raw b e i = 1 → cfg.reconstruction_time_step = e - b) ∧
      (num_times_raw b e i ≠ 1 → cfg.reconstruction_time_step = initial_time_step b e i) := by
  have h0 : ¬ (i ≤ 0) := not_le.mpr hi
  unfold ReconstructByTopologies_init
  rw [if_neg h0]
  refine ⟨_, rfl, rfl, ?_, ?_, rfl, ?_, ?_⟩
  · intro h
    rw [initial_time_step, if_neg (lt_asymm h)]
  · intro h
    rw [initial_time_step, if_pos h]
  · intro h
    show (if num_times_raw b e i = 1 then e - b else initial_time_step b e i) = e - b
    rw [if_pos h]
  · intro h
    show (if num_times_raw b e i = 1 then e - b else initial_time_step b e i) =
      initial_time_step b e i
    rw [if_neg h]

/-- C5 witness: for the span 10 → 0 with interval 1 the constructor yields
11 sample times. -/
theorem num_times_derivation_witness :
    (0 : ℚ) < 1 ∧ cfgW5.num_times = 11 ∧
      ReconstructByTopologies_init trivialCollab none 10 0 1 ([] : List Unit)
        none none none = Except.ok cfgW5 := by
  refine ⟨by norm_num, ?_, by rfl⟩
  obtain ⟨cfg, hok, -, -, -, hnum, -, -⟩ :=
    num_times_derivation trivialCollab none (10 : ℚ) 0 1 ([] : List Unit) (by norm_num)
  have h2 : (Except.ok cfg : Except String (RBTConfig Unit Unit Unit)) =
      Except.ok cfgW5 := by
    rw [← hok]
    exact rfl
  injection h2 with h2
  rw [← h2, hnum]
  have hstep : initial_time_step 10 0 1 = -1 := by
    rw [initial_time_step, if_pos]
    norm_num
  have hraw : num_times_raw 10 0 1 = 11 := by
    rw [num_times_raw, hstep]
    norm_num
  rw [hraw]
  decide

lemma optional_point_array_error_iff {α β : Type} (provided : Option (List α))
    (coe : α → β) (d : β) (n : ℕ) (msg : String) :
    (∃ m, optional_point_array provided coe d n msg = Except.error m) ↔
      ∃ l, provided = some l ∧ l.length ≠ n := by
  rcases provided with _ | l
  · simp [optional_point_array]
  · by_cases h : l.length = n <;> simp [optional_point_array, h]

/-- C8: construction fails with a `ValueError` exactly when the time
interval is not strictly positive or a provided optional per-point array has
the wrong length; the check happens at construction (no simulation state
exists yet), and omitted arrays default to an unrestricted window
(`inf` / `-inf`) and fallback plate id 0. -/
theorem construction_validation (collab : Collaborators Pt Geom Rot)
    (detect : Option (CollisionFn Pt Geom)) (b e i : ℚ) (points : List Pt)
    (pbt pet : Option (List ℚ)) (ppid : Option (List ℕ)) :
    ((∃ msg, ReconstructByTopologies_init collab detect b e i points pbt pet ppid =
        Except.error msg) ↔
      (¬ 0 < i ∨ (∃ l, pbt = some l ∧ l.length ≠ points.length) ∨
        (∃ l, pet = some l ∧ l.length ≠ points.length) ∨
        (∃ l, ppid = some l ∧ l.length ≠ points.length)))
    ∧ ∀ cfg, ReconstructByTopologies_init collab detect b e i points pbt pet ppid =
        Except.ok cfg →
        ((pbt = none → ∀ j, cfg.point_begin_times j = ⊤) ∧
          (pet = none → ∀ j, cfg.point_end_times j = ⊥) ∧
          (ppid = none → ∀ j, cfg.point_plate_ids j = 0)) := by
  have hbt := optional_point_array_error_iff pbt (fun x => (x : WithTop ℚ))
    (⊤ : WithTop ℚ) points.length
    "Length of point_begin_times must match length of points."
  have het := optional_point_array_error_iff pet (fun x => (x : WithBot ℚ))
    (⊥ : WithBot ℚ) points.length
    "Length of point_end_times must match length of points."
  have hpl := optional_point_array_error_iff ppid id 0 points.length
    "Length of point_plate_ids must match length of points."
  constructor
  · by_cases hi0 : i ≤ 0
    · refine iff_of_true ⟨"reconstruction_time_interval must be positive.", ?_⟩
        (Or.inl (not_lt.mpr hi0))
      unfold ReconstructByTopologies_init
      rw [if_pos hi0]
    · have hipos : (0 : ℚ) < i := not_le.mp hi0
      simp only [ReconstructByTopologies_init, hi0, if_false]
      cases hA : optional_point_array pbt (fun x => (x : WithTop ℚ))
          (⊤ : WithTop ℚ) points.length
          "Length of point_begin_times must match length of points." with
      | error m =>
          exact iff_of_true ⟨m, rfl⟩ (Or.inr (Or.inl (hbt.mp ⟨m, hA⟩)))
      | ok bt =>
          cases hB : optional_point_array pet (fun x => (x : WithBot ℚ))
              (⊥ : WithBot ℚ) points.length
              "Length of point_end_times must match length of points." with
          | error m =>
              exact iff_of_true ⟨m, rfl⟩ (Or.inr (Or.inr (Or.inl (het.mp ⟨m, hB⟩))))
          | ok et =>
              cases hC : optional_point_array ppid id 0 points.length
                  "Length of point_plate_ids must match length of points." with
              | error m =>
                  exact iff_of_true ⟨m, rfl⟩
                    (Or.inr (Or.inr (Or.inr (hpl.mp ⟨m, hC⟩))))
              | ok pl =>
                  refine iff_of_false (by simp) ?_
                  rintro (hc | hc | hc | hc)
                  · exact hc hipos
                  · obtain ⟨m, hm⟩ := hbt.mpr hc
                    rw [hm] at hA
                    cases hA
                  · obtain ⟨m, hm⟩ := het.mpr hc
                    rw [hm] at hB
                    cases hB
                  · obtain ⟨m, hm⟩ := hpl.mpr hc
                    rw [hm] at hC
                    cases hC
  · intro cfg hok
    by_cases hi0 : i ≤ 0
    · simp only [ReconstructByTopologies_init, hi0, if_true] at hok
      exact Except.noConfusion hok
    · simp only [ReconstructByTopologies_init, hi0, if_false] at hok
      cases hA : optional_point_array pbt (fun x => (x : WithTop ℚ))
          (⊤ : WithTop ℚ) points.length
          "Length of point_begin_times must match length of points." with
      | error m => rw [hA] at hok; cases hok
      | ok bt =>
          rw [hA] at hok
          cases hB : optional_point_array pet (fun x => (x : WithBot ℚ))
              (⊥ : WithBot ℚ) points.length
              "Length of point_end_times must match length of points." with
          | error m => rw [hB] at hok; cases hok
          | ok et =>
              rw [hB] at hok
              cases hC : optional_point_array ppid id 0 points.length
                  "Length of point_plate_ids must match length of points." with
              | error m => rw [hC] at hok; cases hok
              | ok pl =>
                  rw [hC] at hok
                  injection hok with hok
                  subst hok
                  refine ⟨?_, ?_, ?_⟩ <;> intro hnone j <;> subst hnone
                  · unfold optional_point_array at hA
                    injection hA with hA
                    exact congrFun hA.symm j
                  · unfold optional_point_array at hB
                    injection hB with hB
                    exact congrFun hB.symm j
                  · unfold optional_point_array at hC
                    injection hC with hC
                    exact congrFun hC.symm j

/-- C8 witness: the constructor rejects a zero interval, rejects a
mismatched `point_begin_times`, and with all optional arrays omitted builds
an unrestricted window and fallback plate id 0. -/
theorem construction_validation_witness :
    (∃ msg, ReconstructByTopologies_init trivialCollab none 10 0 0 [()] none none none =
      Except.error msg) ∧
    (∃ msg, ReconstructByTopologies_init trivialCollab none 10 0 1 [()] (some [1, 2])
      none none = Except.error msg) ∧
    ReconstructByTopologies_init trivialCollab none 10 0 1 [()] none none none =
      Except.ok cfgW8 ∧
    cfgW8.point_begin_times 0 = ⊤ ∧ cfgW8.point_end_times 0 = ⊥ ∧
    cfgW8.point_plate_ids 0 = 0 := by
  refine ⟨?_, ?_, by rfl, ?_, ?_, ?_⟩
  · exact (construction_validation trivialCollab none 10 0 0 [()] none none none).1.mpr
      (Or.inl (by norm_num))
  · exact (construction_validation trivialCollab none 10 0 1 [()] (some [1, 2])
      none none).1.mpr (Or.inr (Or.inl ⟨[1, 2], rfl, by decide⟩))
  · exact ((construction_validation trivialCollab none 10 0 1 [()] none none
      none).2 cfgW8 (by rfl)).1 rfl 0
  · exact (((construction_validation trivialCollab none 10 0 1 [()] none none
      none).2 cfgW8 (by rfl)).2).1 rfl 0
  · exact (((construction_validation trivialCollab none 10 0 1 [()] none none
      none).2 cfgW8 (by rfl)).2).2 rfl 0

/-- C9: `ContinentCollision.__call__` reports a collision iff the sampled
raster value at the current point exceeds 0.5 or the chained policy (when
one is configured) reports one; on a raster hit the deletion counter (reset
on a grid reload) is incremented, otherwise it is left as is. -/
theorem continent_collision_verdict (sample_grid : ℚ → Pt → ℚ)
    (chain : Option (CollisionFn Pt Geom)) (s : ContinentCollisionState)
    (time interval : ℚ) (pp cp : Pt) (ppid : Option ℕ) (pbd : Option Geom)
    (cpid : Option ℕ) (cbd : Option Geom) :
    ((ContinentCollision_call sample_grid chain s time interval pp cp ppid pbd
        cpid cbd).1 = true ↔
      (1 / 2 < sample_grid time cp ∨ ∃ chainf, chain = some chainf ∧
        chainf time interval pp cp ppid pbd cpid cbd = true))
    ∧ (1 / 2 < sample_grid time cp →
        (ContinentCollision_call sample_grid chain s time interval pp cp ppid pbd
          cpid cbd).2.continent_deletion_count =
          (if s.grid_time = some time then s.continent_deletion_count else 0) + 1)
    ∧ (¬ 1 / 2 < sample_grid time cp →
        (ContinentCollision_call sample_grid chain s time interval pp cp ppid pbd
          cpid cbd).2.continent_deletion_count =
          (if s.grid_time = some time then s.continent_deletion_count else 0)) := by
  unfold ContinentCollision_call
  cases chain with
  | none => split_ifs <;> simp_all
  | some chainf => split_ifs <;> simp_all

/-- C9 witness: with the raster sampling 1 everywhere and no chained policy,
a fresh-state call reports a collision and the counter ends at 1. -/
theorem continent_collision_verdict_witness :
    (1 : ℚ) / 2 < 1 ∧
      (ContinentCollision_call (fun _ _ => 1) (none : Option (CollisionFn ℤ ℕ))
        ⟨none, 5⟩ 0 1 0 0 none none none none).1 = true ∧
      (ContinentCollision_call (fun _ _ => 1) (none : Option (CollisionFn ℤ ℕ))
        ⟨none, 5⟩ 0 1 0 0 none none none none).2.continent_deletion_count = 1 := by
  have h := continent_collision_verdict (fun _ _ => (1 : ℚ))
    (none : Option (CollisionFn ℤ ℕ)) ⟨none, 5⟩ 0 1 0 0 none none none none
  refine ⟨by norm_num, h.1.mpr (Or.inl (by norm_num)), ?_⟩
  have h2 := h.2.1 (by norm_num)
  simpa using h2

lemma ContinentCollision_call_snd (sample_grid : ℚ → Pt → ℚ)
    (chain : Option (CollisionFn Pt Geom)) (s : ContinentCollisionState)
    (time interval : ℚ) (pp cp : Pt) (ppid : Option ℕ) (pbd : Option Geom)
    (cpid : Option ℕ) (cbd : Option Geom) :
    (ContinentCollision_call sample_grid chain s time interval pp cp ppid pbd
        cpid cbd).2 =
      { grid_time := some time
        continent_deletion_count :=
          (if s.grid_time = some time then s.continent_deletion_count else 0) +
            (if 1 / 2 < sample_grid time cp then 1 else 0) } := by
  obtain ⟨gt, c⟩ := s
  unfold ContinentCollision_call
  cases chain <;> split_ifs <;> simp_all

lemma ContinentCollision_run_loaded (sample_grid : ℚ → Pt → ℚ)
    (chain : Option (CollisionFn Pt Geom)) (T : ℚ) :
    ∀ (qs : List (CollisionQuery Pt Geom)) (s : ContinentCollisionState),
      (∀ q ∈ qs, q.time = T) → s.grid_time = some T →
      (ContinentCollision_run sample_grid chain s qs).continent_deletion_count =
        s.continent_deletion_count +
          qs.countP (fun q => decide (1 / 2 < sample_grid q.time q.curr_point)) ∧
      (ContinentCollision_run sample_grid chain s qs).grid_time = some T := by
  intro qs
  induction qs with
  | nil =>
      intro s _ hg
      constructor
      · simp [ContinentCollision_run]
      · simpa [ContinentCollision_run] using hg
  | cons q qs ih =>
      intro s hq hg
      have hqt : q.time = T := hq q (List.mem_cons_self q qs)
      have hqs : ∀ r ∈ qs, r.time = T := fun r hr => hq r (List.mem_cons_of_mem q hr)
      have hg2 : s.grid_time = some q.time := by rw [hg, hqt]
      simp only [ContinentCollision_run]
      rw [ContinentCollision_call_snd, if_pos hg2]
      have hrec := ih
        { grid_time := some q.time
          continent_deletion_count := s.continent_deletion_count +
            (if 1 / 2 < sample_grid q.time q.curr_point then 1 else 0) }
        hqs (by rw [hqt])
      refine ⟨?_, hrec.2⟩
      rw [hrec.1, List.countP_cons]
      simp only [decide_eq_true_eq]
      ring

/-- C10: the deletion counter is reset on every invocation whose time
differs from the loaded grid time, so after a batch at one new time the
counter equals the number of raster hits in that batch, independently of the
counter value accumulated before the reload. -/
theorem continent_deletion_count_since_reload (sample_grid : ℚ → Pt → ℚ)
    (chain : Option (CollisionFn Pt Geom)) (s : ContinentCollisionState)
    (q : CollisionQuery Pt Geom) (qs : List (CollisionQuery Pt Geom))
    (hqs : ∀ r ∈ qs, r.time = q.time) (hs : s.grid_time ≠ some q.time) :
    (ContinentCollision_run sample_grid chain s (q :: qs)).continent_deletion_count =
      (q :: qs).countP (fun r => decide (1 / 2 < sample_grid r.time r.curr_point)) := by
  simp only [ContinentCollision_run]
  rw [ContinentCollision_call_snd, if_neg hs]
  have hrec := ContinentCollision_run_loaded sample_grid chain q.time qs
    { grid_time := some q.time
      continent_deletion_count := 0 +
        (if 1 / 2 < sample_grid q.time q.curr_point then 1 else 0) }
    hqs rfl
  rw [hrec.1, List.countP_cons]
  simp only [decide_eq_true_eq]
  ring


/-- C10 witness: starting from a state whose loaded grid time differs and
whose counter reads 1000, a two-query batch at the new time with the raster
sampling 1 everywhere ends with the counter at 2, not 1002. -/
theorem continent_deletion_count_since_reload_witness :
    (ContinentCollision_run (fun _ _ => 1) (none : Option (CollisionFn ℤ ℕ))
      ⟨some 5, 1000⟩ [qW10, qW10]).continent_deletion_count = 2 := by
  have h := continent_deletion_count_since_reload (fun _ _ => (1 : ℚ))
    (none : Option (CollisionFn ℤ ℕ)) ⟨some 5, 1000⟩ qW10 [qW10] (by decide) (by decide)
  exact h.trans (by norm_num [List.countP_cons, qW10])

end GPlately
